import Mathlib

/-!
Shallow embedding of the difficulty-aware scoring engine
(`lib/difficulty-aware-scorer.ts`) and of the question-generation
orchestrator described in the design documents, together with proofs of
the behavioural properties stated in the specification.

Numeric values are embedded as rationals (`ℚ`); the one function that
uses a square root (`computeOverallConfidenceScore`) is embedded over
the reals.  Lists stand for JS arrays; pairing of responses with
questions by index is `List.zip`, which drops unmatched tails exactly as
the guard on `questions[idx]` in the source does.
-/

namespace DifficultyScorer

/-- Difficulty tier of a question (`"easy" | "moderate" | "hard"`). -/
inductive Difficulty
  | easy
  | moderate
  | hard
deriving DecidableEq, Repr

/-- The fields of `Question` that the scoring engine reads. -/
structure Question where
  topic : String
  difficulty : Difficulty
deriving DecidableEq, Repr

/-- The fields of `QuestionResponse` that the scoring engine reads. -/
structure QuestionResponse where
  is_correct : Bool
  user_confidence : ℚ
  total_time : ℚ
deriving DecidableEq, Repr

/-- The `DifficultyScore` record of the source. -/
structure DifficultyScore where
  difficulty : Difficulty
  total_questions : ℕ
  correct : ℕ
  accuracy : ℚ
  avg_confidence : ℚ
  avg_time : ℚ
deriving DecidableEq, Repr

/-- The three-tier record `scores` of `computeDifficultyScores`. -/
structure DifficultyScores where
  easy : DifficultyScore
  moderate : DifficultyScore
  hard : DifficultyScore
deriving DecidableEq, Repr

/-- The all-zero initial record for one tier. -/
def DifficultyScore.init (d : Difficulty) : DifficultyScore :=
  { difficulty := d, total_questions := 0, correct := 0, accuracy := 0
    avg_confidence := 0, avg_time := 0 }

/-- The all-zero initial `scores` record. -/
def initScores : DifficultyScores :=
  { easy := DifficultyScore.init .easy
    moderate := DifficultyScore.init .moderate
    hard := DifficultyScore.init .hard }

/-- One step of the grouping loop of `computeDifficultyScores`:
increment the counters and add the confidence and time into the
running sums (the source reuses the `avg_*` fields as accumulators). -/
def DifficultyScore.addResponse (s : DifficultyScore) (r : QuestionResponse) :
    DifficultyScore :=
  { s with
    total_questions := s.total_questions + 1
    correct := s.correct + (if r.is_correct then 1 else 0)
    avg_confidence := s.avg_confidence + r.user_confidence
    avg_time := s.avg_time + r.total_time }

/-- The `responses.forEach` grouping loop of `computeDifficultyScores`,
over the position-wise response/question pairs. -/
def accumulateScores (pairs : List (QuestionResponse × Question))
    (acc : DifficultyScores) : DifficultyScores :=
  pairs.foldl
    (fun acc rq =>
      match rq.2.difficulty with
      | .easy => { acc with easy := acc.easy.addResponse rq.1 }
      | .moderate => { acc with moderate := acc.moderate.addResponse rq.1 }
      | .hard => { acc with hard := acc.hard.addResponse rq.1 })
    acc

/-- The averaging pass of `computeDifficultyScores`: when a tier has at
least one question, turn the accumulated sums into accuracy and means;
otherwise leave the zero record untouched. -/
def DifficultyScore.finalize (s : DifficultyScore) : DifficultyScore :=
  if s.total_questions > 0 then
    { s with
      accuracy := ((s.correct : ℚ) / (s.total_questions : ℚ)) * 100
      avg_confidence := s.avg_confidence / (s.total_questions : ℚ)
      avg_time := s.avg_time / (s.total_questions : ℚ) }
  else s

/-- Embedding of `computeDifficultyScores`: group responses by the
difficulty of the question at the same index (responses with no
question at their index are skipped by the `if (!question) return`
guard, which `List.zip` mirrors), then average per tier. -/
def computeDifficultyScores (responses : List QuestionResponse)
    (questions : List Question) : DifficultyScores :=
  let acc := accumulateScores (responses.zip questions) initScores
  { easy := acc.easy.finalize
    moderate := acc.moderate.finalize
    hard := acc.hard.finalize }

/-- Mastery status of a topic
(`"mastered" | "partially-understood" | "needs-revision"`). -/
inductive MasteryStatus
  | mastered
  | partiallyUnderstood
  | needsRevision
deriving DecidableEq, Repr

/-- The `ConceptMastery` record of the source. -/
structure ConceptMastery where
  concept : String
  easy_score : ℚ
  moderate_score : ℚ
  hard_score : ℚ
  overall_score : ℚ
  status : MasteryStatus
  question_count : ℕ
deriving DecidableEq, Repr

/-- Topics in order of first encounter.  The source collects topics as
insertion order of a JS `Map`, i.e. each topic appears once, at the
position of its first occurrence. -/
def firstEncounter (l : List String) : List String :=
  l.foldl (fun acc t => if t ∈ acc then acc else acc ++ [t]) []

/-- Responses recorded for a given topic and tier (the per-cell
`{correct, total}` bucket of the `conceptMap` in the source). -/
def tierBucket (pairs : List (QuestionResponse × Question)) (t : String)
    (d : Difficulty) : List QuestionResponse :=
  (pairs.filter (fun rq => rq.2.topic = t ∧ rq.2.difficulty = d)).map Prod.fst

/-- Per-tier sub-score of a topic: `correct/total × 100`, `0` for an
empty bucket. -/
def tierScore (pairs : List (QuestionResponse × Question)) (t : String)
    (d : Difficulty) : ℚ :=
  let b := tierBucket pairs t d
  if b.length > 0 then
    ((b.filter (fun r => r.is_correct)).length : ℚ) / (b.length : ℚ) * 100
  else 0

/-- The `ConceptMastery` entry the source builds for one topic:
weighted overall score (easy 30%, moderate 40%, hard 30%) and the
threshold-based status. -/
def mkMastery (pairs : List (QuestionResponse × Question)) (t : String) :
    ConceptMastery :=
  let easyScore := tierScore pairs t .easy
  let moderateScore := tierScore pairs t .moderate
  let hardScore := tierScore pairs t .hard
  let totalQuestions := (tierBucket pairs t .easy).length +
    (tierBucket pairs t .moderate).length + (tierBucket pairs t .hard).length
  let overallScore := easyScore * 0.3 + moderateScore * 0.4 + hardScore * 0.3
  let status : MasteryStatus :=
    if overallScore ≥ 80 then .mastered
    else if overallScore ≥ 50 then .partiallyUnderstood
    else .needsRevision
  { concept := t, easy_score := easyScore, moderate_score := moderateScore
    hard_score := hardScore, overall_score := overallScore, status := status
    question_count := totalQuestions }

/-- The unsorted `masteryList` of the source, in first-encounter order
of the topics. -/
def conceptEncounterList (responses : List QuestionResponse)
    (questions : List Question) : List ConceptMastery :=
  let pairs := responses.zip questions
  (firstEncounter (pairs.map (fun rq => rq.2.topic))).map (mkMastery pairs)

/-- Comparison used by the final `sort`: descending by overall score
(the JS comparator `b.overall_score - a.overall_score`). -/
def masteryGE (a b : ConceptMastery) : Prop :=
  b.overall_score ≤ a.overall_score

instance : DecidableRel masteryGE := fun a b =>
  inferInstanceAs (Decidable (b.overall_score ≤ a.overall_score))

instance : IsTotal ConceptMastery masteryGE :=
  ⟨fun a b => le_total b.overall_score a.overall_score⟩

instance : IsTrans ConceptMastery masteryGE :=
  ⟨fun _ _ _ h1 h2 => le_trans h2 h1⟩

/-- Embedding of `computeConceptMastery`: bucket by topic × tier,
score each topic, and stably sort the list descending by overall score
(JS `Array.prototype.sort` is stable, and insertion sort with the
non-strict descending comparison is the stable descending sort). -/
def computeConceptMastery (responses : List QuestionResponse)
    (questions : List Question) : List ConceptMastery :=
  List.insertionSort masteryGE (conceptEncounterList responses questions)

/-- Embedding of `computeOverallConfidenceScore`: weighted sum of
accuracy, consistency (100 minus 100 × population standard deviation of
the 0/1 correctness sequence, clamped below at 0) and speed (120 s
baseline, clamped below at 0), rounded to the nearest integer.  The
`difficultyScores` argument is accepted but never read, as in the
source.  Embedded over `ℝ` because of the square root. -/
noncomputable def computeOverallConfidenceScore
    (responses : List QuestionResponse) (difficultyScores : DifficultyScores) :
    ℤ :=
  match responses with
  | [] => 0
  | _ :: _ =>
    let n : ℝ := (responses.length : ℝ)
    let totalCorrect : ℝ :=
      ((responses.filter (fun r => r.is_correct)).length : ℝ)
    let accuracy : ℝ := totalCorrect / n * 100
    let correctnessValues : List ℝ :=
      responses.map (fun r => if r.is_correct then 1 else 0)
    let avgCorrectness : ℝ := correctnessValues.sum / n
    let variance : ℝ :=
      (correctnessValues.map (fun v => (v - avgCorrectness) ^ 2)).sum / n
    let consistency : ℝ := max 0 (100 - Real.sqrt variance * 100)
    let avgTime : ℝ := (responses.map (fun r => (r.total_time : ℝ))).sum / n
    let speedScore : ℝ := max 0 (100 - avgTime / 120 * 100)
    round (accuracy * 0.6 + consistency * 0.25 + speedScore * 0.15)

/-- Definition written from the words of the specification (§4.6), for
comparison with the source embedding `computeOverallConfidenceScore`:
accuracy is the fraction correct × 100, consistency is
`max(0, 100 − 100 × stddev)` with the population standard deviation of
the binary correctness sequence, speed is `max(0, 100 − (mean/120)×100)`. -/
noncomputable def specConfidenceScore (responses : List QuestionResponse) : ℤ :=
  let n : ℝ := (responses.length : ℝ)
  let fractionCorrect : ℝ :=
    ((responses.filter (fun r => r.is_correct)).length : ℝ) / n
  let accuracy : ℝ := fractionCorrect * 100
  let correctness : List ℝ :=
    responses.map (fun r => if r.is_correct then 1 else 0)
  let mean : ℝ := correctness.sum / n
  let stddev : ℝ :=
    Real.sqrt ((correctness.map (fun x => (x - mean) ^ 2)).sum / n)
  let consistency : ℝ := max 0 (100 - 100 * stddev)
  let meanTime : ℝ := (responses.map (fun r => (r.total_time : ℝ))).sum / n
  let speed : ℝ := max 0 (100 - meanTime / 120 * 100)
  round (accuracy * 0.6 + consistency * 0.25 + speed * 0.15)

/-- Session-wide understanding level
(`"job-ready" | "improving" | "beginner"`). -/
inductive UnderstandingLevel
  | jobReady
  | improving
  | beginner
deriving DecidableEq, Repr

/-- Embedding of `determineUnderstandingLevel`: job-ready before
improving before beginner, from the three tier accuracies. -/
def determineUnderstandingLevel (ds : DifficultyScores) : UnderstandingLevel :=
  if ds.easy.accuracy ≥ 80 ∧ ds.moderate.accuracy ≥ 70 ∧
      ds.hard.accuracy ≥ 60 then
    .jobReady
  else if ds.easy.accuracy ≥ 70 ∧ ds.moderate.accuracy ≥ 60 then
    .improving
  else
    .beginner

/-- The recommendation list before the default-message fallback and the
truncation to 3 entries: the source pushes, in this fixed order, at most
one message for low hard accuracy, low moderate accuracy, low easy
accuracy, topics needing revision (naming up to 2), and
confidence/accuracy miscalibration in either direction. -/
def recommendationCandidates (ds : DifficultyScores)
    (conceptMastery : List ConceptMastery) : List String :=
  let easyAccuracy := ds.easy.accuracy
  let moderateAccuracy := ds.moderate.accuracy
  let hardAccuracy := ds.hard.accuracy
  (if hardAccuracy < 60 then
    ["Practice complex problem-solving and multi-step reasoning to strengthen Hard-level performance."]
  else []) ++
  (if moderateAccuracy < 60 then
    ["Reinforce conceptual learning by working through more application-based scenarios."]
  else []) ++
  (if easyAccuracy < 70 then
    ["Review fundamental definitions and terminology to solidify your foundation."]
  else []) ++
  (let weakConcepts := conceptMastery.filter
      (fun c => c.status = MasteryStatus.needsRevision)
   if weakConcepts.length > 0 then
     let topWeak := String.intercalate ", "
       ((weakConcepts.take 2).map (fun c => c.concept))
     ["Focus revision efforts on: " ++ topWeak ++
       ". These concepts require more attention."]
   else []) ++
  (let avgConfidence := (ds.easy.avg_confidence + ds.moderate.avg_confidence +
      ds.hard.avg_confidence) / 3
   let avgAccuracy := (easyAccuracy + moderateAccuracy + hardAccuracy) / 3
   if avgConfidence > avgAccuracy + 20 then
     ["Work on self-assessment calibration. Your confidence often exceeds your accuracy."]
   else if avgAccuracy > avgConfidence + 20 then
     ["Build confidence in your knowledge. You\x27re performing better than you think!"]
   else [])

/-- Embedding of `generateRecommendations`: the candidates above, a
single positive default message when none was generated, truncated to
the first 3 entries. -/
def generateRecommendations (ds : DifficultyScores)
    (conceptMastery : List ConceptMastery) : List String :=
  let recommendations := recommendationCandidates ds conceptMastery
  (if recommendations.length = 0 then
    ["Excellent performance! Continue practicing advanced topics to maintain mastery."]
  else recommendations).take 3

/-! ### Question generation orchestrator

The generator, validator and auto-fixer live in the backend services
(`question_generator.py`, `question_validator.py`), which are not part
of the sources available here; they are modelled from the
specification (§4.1–§4.3). -/

/-- Structural sub-format of a question
(`MCQ | MCQ_REASONING | ASSERTION_REASON`). -/
inductive Segment
  | MCQ
  | MCQ_REASONING
  | ASSERTION_REASON
deriving DecidableEq, Repr

/-- Modelled from the spec: the required segment per slot —
easy/moderate → MCQ; hard → MCQ_REASONING at even zero-based index,
ASSERTION_REASON at odd index (§4.3 step 1). -/
def requiredSegment (tier : Difficulty) (i : ℕ) : Segment :=
  match tier with
  | .hard => if i % 2 = 0 then .MCQ_REASONING else .ASSERTION_REASON
  | _ => .MCQ

/-- Modelled from the spec: `reasoning_required` is true exactly for the
MCQ_REASONING segment (§4.1). -/
def requiredReasoning (tier : Difficulty) (i : ℕ) : Bool :=
  requiredSegment tier i = Segment.MCQ_REASONING

/-- Modelled from the spec: the shape of a draft returned by the
external generator, abstracted to the fields the validator rules
mention — segment, option count, canonical A–D labelling, the
correct answer being a label matching a presented option, and the
`reasoning_required` flag (§4.1, §6). -/
structure DraftQuestion where
  segment : Segment
  optionCount : ℕ
  labelsCanonical : Bool
  answerIsLabel : Bool
  reasoning_required : Bool
deriving DecidableEq, Repr

/-- Modelled from the spec: structured violations returned by the
validator (field-level, not exceptions) (§4.1). -/
inductive Violation
  | wrongSegment
  | badOptionCount
  | badLabels
  | badAnswer
  | wrongReasoningFlag
deriving DecidableEq, Repr

/-- Modelled from the spec: the validator checks a draft against the
tier/slot rules and returns the list of violations; the draft is valid
iff the list is empty (§4.1). -/
def validateQuestion (tier : Difficulty) (i : ℕ) (q : DraftQuestion) :
    List Violation :=
  (if q.segment ≠ requiredSegment tier i then [.wrongSegment] else []) ++
  (if q.optionCount ≠ 4 then [.badOptionCount] else []) ++
  (if ¬ q.labelsCanonical then [.badLabels] else []) ++
  (if ¬ q.answerIsLabel then [.badAnswer] else []) ++
  (if q.reasoning_required ≠ requiredReasoning tier i then
    [.wrongReasoningFlag] else [])

/-- Modelled from the spec: the auto-fixer re-letters the options into
canonical A–D order when the four option texts are present, coerces a
full-text correct answer into its label, and aligns the
`reasoning_required` flag with the tier; it cannot invent missing
options and never changes the segment (§4.2). -/
def autoFixQuestion (tier : Difficulty) (i : ℕ) (q : DraftQuestion) :
    DraftQuestion :=
  { q with
    labelsCanonical := q.labelsCanonical || q.optionCount == 4
    answerIsLabel := true
    reasoning_required := requiredReasoning tier i }

/-- Modelled from the spec: the static fallback question pre-built for a
(tier, segment) pair, substituted when retries exhaust (§4.3 step 5). -/
def fallbackQuestion (tier : Difficulty) (i : ℕ) : DraftQuestion :=
  { segment := requiredSegment tier i, optionCount := 4
    labelsCanonical := true, answerIsLabel := true
    reasoning_required := requiredReasoning tier i }

/-- Modelled from the spec: the per-slot retry loop — draw a draft from
the external generator, validate, auto-fix and re-validate, retry with a
fresh draft while attempts remain, and fall back when they exhaust
(§4.3 steps 2–5).  `gen` is the arbitrary (stochastic) external
generator for this slot, indexed by attempt number. -/
def generateSlotGo (gen : ℕ → DraftQuestion) (tier : Difficulty) (i : ℕ) :
    ℕ → ℕ → DraftQuestion
  | 0, _ => fallbackQuestion tier i
  | fuel + 1, attempt =>
    let draft := gen attempt
    if validateQuestion tier i draft = [] then draft
    else
      let fixed := autoFixQuestion tier i draft
      if validateQuestion tier i fixed = [] then fixed
      else generateSlotGo gen tier i fuel (attempt + 1)

/-- Modelled from the spec: one slot of the batch, with the observed
retry bound of 3 attempts (§4.3 step 4). -/
def generateSlot (gen : ℕ → DraftQuestion) (tier : Difficulty) (i : ℕ) :
    DraftQuestion :=
  generateSlotGo gen tier i 3 0

/-- Modelled from the spec: the orchestrator produces an ordered batch
of exactly `n` questions, slot by slot (§4.3).  `gen i a` is the
draft of the external generator for slot `i`, attempt `a`. -/
def generateQuestionBatch (gen : ℕ → ℕ → DraftQuestion) (tier : Difficulty)
    (n : ℕ) : List DraftQuestion :=
  (List.range n).map (fun i => generateSlot (gen i) tier i)

/-! ### Helper lemmas -/

theorem zip_take_left {α β : Type} :
    ∀ (l : List α) (l2 : List β), l.zip l2 = (l.take l2.length).zip l2
  | [], _ => by simp
  | _ :: _, [] => rfl
  | a :: l, b :: l2 => by
    simp only [List.zip_cons_cons, List.length_cons, List.take_succ_cons]
    exact congrArg _ (zip_take_left l l2)

theorem zip_take_right {α β : Type} :
    ∀ (l : List α) (l2 : List β), l.zip l2 = l.zip (l2.take l.length)
  | [], _ => rfl
  | _ :: _, [] => rfl
  | a :: l, b :: l2 => by
    simp only [List.zip_cons_cons, List.length_cons, List.take_succ_cons]
    exact congrArg _ (zip_take_right l l2)

/-! ### C1: behaviour on mismatched response/question lists -/

/-- C1 counterexample: with one response and an empty questions list the
scoring calls do not fail — the embedding is total because the source
never throws; `if (!question) return` skips the unmatched response — and
they return exactly the same values as on fully empty input, so the
unmatched response is silently dropped rather than reported. -/
theorem mismatched_input_is_silently_skipped :
    computeDifficultyScores [⟨true, 90, 10⟩] [] =
      computeDifficultyScores [] [] ∧
    computeConceptMastery [⟨true, 90, 10⟩] [] = [] := by
  constructor
  · rfl
  · rfl

/-- C1 (amended): on mismatched lengths the scoring functions do not
fail; they silently ignore the responses beyond the end of the
questions list and the questions beyond the end of the responses list —
the results coincide with those for the truncated inputs. -/
theorem scoring_ignores_unmatched_tails :
    ∀ (responses : List QuestionResponse) (questions : List Question),
      computeDifficultyScores responses questions =
        computeDifficultyScores (responses.take questions.length) questions ∧
      computeDifficultyScores responses questions =
        computeDifficultyScores responses (questions.take responses.length) ∧
      computeConceptMastery responses questions =
        computeConceptMastery (responses.take questions.length) questions ∧
      computeConceptMastery responses questions =
        computeConceptMastery responses (questions.take responses.length) := by
  intro responses questions
  have htl := zip_take_left responses questions
  have htr := zip_take_right responses questions
  have hl : (responses.take questions.length).zip questions =
      responses.zip questions := by
    rw [← htl]
  have hr : responses.zip (questions.take responses.length) =
      responses.zip questions := by
    rw [← htr]
  refine ⟨?_, ?_, ?_, ?_⟩ <;>
    simp only [computeDifficultyScores, computeConceptMastery,
      conceptEncounterList, hl, hr]

/-! ### C2: hard-tier segment alternation -/

theorem valid_draft_segment {tier : Difficulty} {i : ℕ} {q : DraftQuestion}
    (h : validateQuestion tier i q = []) :
    q.segment = requiredSegment tier i := by
  by_contra hne
  simp [validateQuestion, hne] at h

theorem generateSlotGo_segment (gen : ℕ → DraftQuestion) (tier : Difficulty)
    (i : ℕ) : ∀ (fuel attempt : ℕ),
    (generateSlotGo gen tier i fuel attempt).segment = requiredSegment tier i
  | 0, _ => rfl
  | fuel + 1, attempt => by
    simp only [generateSlotGo]
    split_ifs with h1 h2
    · exact valid_draft_segment h1
    · exact valid_draft_segment h2
    · exact generateSlotGo_segment gen tier i fuel (attempt + 1)

theorem getD_map_range {α : Type} (f : ℕ → α) (d : α) {i n : ℕ} (h : i < n) :
    ((List.range n).map f).getD i d = f i := by
  simp [List.getD, List.getElem?_map, List.getElem?_range, h]

/-- C2: every generated hard-tier batch has exactly the requested size,
and for every slot `i` the segment of the produced question is MCQ_REASONING
when `i` is even and ASSERTION_REASON when `i` is odd, whatever drafts
the external generator returns on any attempt. -/
theorem hard_batch_segments_alternate :
    ∀ (gen : ℕ → ℕ → DraftQuestion) (n : ℕ),
      (generateQuestionBatch gen .hard n).length = n ∧
      ∀ i, i < n →
        ((generateQuestionBatch gen .hard n).getD i
            (fallbackQuestion .hard i)).segment =
          (if i % 2 = 0 then Segment.MCQ_REASONING
           else Segment.ASSERTION_REASON) := by
  intro gen n
  constructor
  · simp [generateQuestionBatch]
  · intro i hi
    rw [generateQuestionBatch, getD_map_range _ _ hi, generateSlot,
      generateSlotGo_segment]
    rfl

/-- C2 witness: a generator that always returns an invalid MCQ draft
still yields ASSERTION_REASON at the odd slot 1 of a hard batch of 2. -/
theorem hard_batch_segments_alternate_witness :
    (1 < 2 ∧
      ((generateQuestionBatch (fun _ _ => ⟨Segment.MCQ, 3, false, false, false⟩)
          Difficulty.hard 2).getD 1 (fallbackQuestion .hard 1)).segment =
        (if 1 % 2 = 0 then Segment.MCQ_REASONING
         else Segment.ASSERTION_REASON)) :=
  ⟨by decide,
    (hard_batch_segments_alternate
      (fun _ _ => ⟨Segment.MCQ, 3, false, false, false⟩) 2).2 1 (by decide)⟩

/-! ### C10: empty response list -/

/-- C10: with no responses `computeOverallConfidenceScore` returns
exactly 0, for every difficulty-score record — the source short-circuits
before any division by the response count. -/
theorem empty_responses_confidence_zero :
    ∀ ds : DifficultyScores, computeOverallConfidenceScore [] ds = 0 :=
  fun _ => rfl

/-! ### C3 and C4: concept mastery entries -/

theorem mem_computeConceptMastery {responses : List QuestionResponse}
    {questions : List Question} {m : ConceptMastery}
    (hm : m ∈ computeConceptMastery responses questions) :
    ∃ t, m = mkMastery (responses.zip questions) t := by
  rw [computeConceptMastery, List.mem_insertionSort] at hm
  simp only [conceptEncounterList, List.mem_map] at hm
  obtain ⟨t, -, ht⟩ := hm
  exact ⟨t, ht.symm⟩

theorem tierScore_of_empty_bucket (pairs : List (QuestionResponse × Question))
    (t : String) (d : Difficulty) (h : (tierBucket pairs t d).length = 0) :
    tierScore pairs t d = 0 := by
  simp [tierScore, h]

/-- C3: every entry of `computeConceptMastery` has
`overall = easy×0.3 + moderate×0.4 + hard×0.3`, and a tier with no
questions for the topic contributes a per-tier score of exactly 0
(the weights are never renormalized). -/
theorem concept_overall_is_weighted_sum :
    ∀ (responses : List QuestionResponse) (questions : List Question)
      (m : ConceptMastery), m ∈ computeConceptMastery responses questions →
      m.overall_score =
          m.easy_score * 0.3 + m.moderate_score * 0.4 + m.hard_score * 0.3 ∧
        ((tierBucket (responses.zip questions) m.concept .easy).length = 0 →
          m.easy_score = 0) ∧
        ((tierBucket (responses.zip questions) m.concept .moderate).length = 0 →
          m.moderate_score = 0) ∧
        ((tierBucket (responses.zip questions) m.concept .hard).length = 0 →
          m.hard_score = 0) := by
  intro responses questions m hm
  obtain ⟨t, rfl⟩ := mem_computeConceptMastery hm
  refine ⟨rfl, fun h => ?_, fun h => ?_, fun h => ?_⟩ <;>
    exact tierScore_of_empty_bucket _ _ _ h

/-- C3 witness: a single easy response on topic `t`: the easy sub-score
is 100, the other tiers are empty and contribute 0, and the overall
score is `100×0.3 = 30`. -/
theorem concept_overall_is_weighted_sum_witness :
    mkMastery ([(⟨true, 50, 10⟩ : QuestionResponse)].zip
        [(⟨"t", Difficulty.easy⟩ : Question)]) "t" ∈
      computeConceptMastery [⟨true, 50, 10⟩] [⟨"t", Difficulty.easy⟩] ∧
    (mkMastery ([(⟨true, 50, 10⟩ : QuestionResponse)].zip
        [(⟨"t", Difficulty.easy⟩ : Question)]) "t").overall_score =
      (mkMastery ([(⟨true, 50, 10⟩ : QuestionResponse)].zip
        [(⟨"t", Difficulty.easy⟩ : Question)]) "t").easy_score * 0.3 +
      (mkMastery ([(⟨true, 50, 10⟩ : QuestionResponse)].zip
        [(⟨"t", Difficulty.easy⟩ : Question)]) "t").moderate_score * 0.4 +
      (mkMastery ([(⟨true, 50, 10⟩ : QuestionResponse)].zip
        [(⟨"t", Difficulty.easy⟩ : Question)]) "t").hard_score * 0.3 :=
  ⟨by simp [computeConceptMastery, conceptEncounterList, firstEncounter],
    (concept_overall_is_weighted_sum [⟨true, 50, 10⟩] [⟨"t", Difficulty.easy⟩]
      _ (by simp [computeConceptMastery, conceptEncounterList,
        firstEncounter])).1⟩

/-- C4: the mastery status of every entry matches the thresholds with the
stated closed boundaries: mastered iff overall ≥ 80,
partially-understood iff 50 ≤ overall < 80, needs-revision iff
overall < 50. -/
theorem mastery_status_matches_thresholds :
    ∀ (responses : List QuestionResponse) (questions : List Question)
      (m : ConceptMastery), m ∈ computeConceptMastery responses questions →
      (m.status = .mastered ↔ m.overall_score ≥ 80) ∧
        (m.status = .partiallyUnderstood ↔
          50 ≤ m.overall_score ∧ m.overall_score < 80) ∧
        (m.status = .needsRevision ↔ m.overall_score < 50) := by
  intro responses questions m hm
  obtain ⟨t, rfl⟩ := mem_computeConceptMastery hm
  simp only [mkMastery]
  split_ifs with h1 h2 <;>
    refine ⟨?_, ?_, ?_⟩ <;> simp_all <;> linarith

/-- C4 witness: one incorrect easy response on topic `s` gives overall
score 0, hence needs-revision and not the other statuses. -/
theorem mastery_status_matches_thresholds_witness :
    mkMastery ([(⟨false, 20, 5⟩ : QuestionResponse)].zip
        [(⟨"s", Difficulty.easy⟩ : Question)]) "s" ∈
      computeConceptMastery [⟨false, 20, 5⟩] [⟨"s", Difficulty.easy⟩] ∧
    ((mkMastery ([(⟨false, 20, 5⟩ : QuestionResponse)].zip
        [(⟨"s", Difficulty.easy⟩ : Question)]) "s").status =
        .needsRevision ↔
      (mkMastery ([(⟨false, 20, 5⟩ : QuestionResponse)].zip
        [(⟨"s", Difficulty.easy⟩ : Question)]) "s").overall_score < 50) :=
  ⟨by simp [computeConceptMastery, conceptEncounterList, firstEncounter],
    (mastery_status_matches_thresholds [⟨false, 20, 5⟩]
      [⟨"s", Difficulty.easy⟩] _
      (by simp [computeConceptMastery, conceptEncounterList,
        firstEncounter])).2.2⟩

/-! ### C5: tiers with zero questions -/

theorem accumulateScores_cons_easy (r : QuestionResponse) (q : Question)
    (rest : List (QuestionResponse × Question)) (acc : DifficultyScores)
    (h : q.difficulty = .easy) :
    accumulateScores ((r, q) :: rest) acc =
      accumulateScores rest { acc with easy := acc.easy.addResponse r } := by
  simp [accumulateScores, h]

theorem accumulateScores_cons_moderate (r : QuestionResponse) (q : Question)
    (rest : List (QuestionResponse × Question)) (acc : DifficultyScores)
    (h : q.difficulty = .moderate) :
    accumulateScores ((r, q) :: rest) acc =
      accumulateScores rest { acc with moderate := acc.moderate.addResponse r } := by
  simp [accumulateScores, h]

theorem accumulateScores_cons_hard (r : QuestionResponse) (q : Question)
    (rest : List (QuestionResponse × Question)) (acc : DifficultyScores)
    (h : q.difficulty = .hard) :
    accumulateScores ((r, q) :: rest) acc =
      accumulateScores rest { acc with hard := acc.hard.addResponse r } := by
  simp [accumulateScores, h]

theorem accumulate_easy_of_zero (pairs : List (QuestionResponse × Question)) :
    ∀ acc, (accumulateScores pairs acc).easy.total_questions = 0 →
      (accumulateScores pairs acc).easy = acc.easy := by
  induction pairs with
  | nil => intro acc _; rfl
  | cons p rest ih =>
    intro acc h
    obtain ⟨r, q⟩ := p
    cases hq : q.difficulty
    case easy =>
      rw [accumulateScores_cons_easy r q rest acc hq] at h ⊢
      have he := ih _ h
      rw [he] at h
      simp [DifficultyScore.addResponse] at h
    case moderate =>
      rw [accumulateScores_cons_moderate r q rest acc hq] at h ⊢
      exact ih _ h
    case hard =>
      rw [accumulateScores_cons_hard r q rest acc hq] at h ⊢
      exact ih _ h

theorem accumulate_moderate_of_zero
    (pairs : List (QuestionResponse × Question)) :
    ∀ acc, (accumulateScores pairs acc).moderate.total_questions = 0 →
      (accumulateScores pairs acc).moderate = acc.moderate := by
  induction pairs with
  | nil => intro acc _; rfl
  | cons p rest ih =>
    intro acc h
    obtain ⟨r, q⟩ := p
    cases hq : q.difficulty
    case easy =>
      rw [accumulateScores_cons_easy r q rest acc hq] at h ⊢
      exact ih _ h
    case moderate =>
      rw [accumulateScores_cons_moderate r q rest acc hq] at h ⊢
      have he := ih _ h
      rw [he] at h
      simp [DifficultyScore.addResponse] at h
    case hard =>
      rw [accumulateScores_cons_hard r q rest acc hq] at h ⊢
      exact ih _ h

theorem accumulate_hard_of_zero (pairs : List (QuestionResponse × Question)) :
    ∀ acc, (accumulateScores pairs acc).hard.total_questions = 0 →
      (accumulateScores pairs acc).hard = acc.hard := by
  induction pairs with
  | nil => intro acc _; rfl
  | cons p rest ih =>
    intro acc h
    obtain ⟨r, q⟩ := p
    cases hq : q.difficulty
    case easy =>
      rw [accumulateScores_cons_easy r q rest acc hq] at h ⊢
      exact ih _ h
    case moderate =>
      rw [accumulateScores_cons_moderate r q rest acc hq] at h ⊢
      exact ih _ h
    case hard =>
      rw [accumulateScores_cons_hard r q rest acc hq] at h ⊢
      have he := ih _ h
      rw [he] at h
      simp [DifficultyScore.addResponse] at h

theorem finalize_total (s : DifficultyScore) :
    s.finalize.total_questions = s.total_questions := by
  rw [DifficultyScore.finalize]
  split_ifs <;> rfl

/-- C5: a difficulty tier with zero bucketed questions reports accuracy,
mean confidence and mean time all exactly 0 — defined zero values, since
the averaging pass never divides for an empty tier. -/
theorem empty_tier_reports_zero :
    ∀ (responses : List QuestionResponse) (questions : List Question),
      ((computeDifficultyScores responses questions).easy.total_questions = 0 →
        (computeDifficultyScores responses questions).easy.accuracy = 0 ∧
        (computeDifficultyScores responses questions).easy.avg_confidence = 0 ∧
        (computeDifficultyScores responses questions).easy.avg_time = 0) ∧
      ((computeDifficultyScores responses questions).moderate.total_questions
          = 0 →
        (computeDifficultyScores responses questions).moderate.accuracy = 0 ∧
        (computeDifficultyScores responses questions).moderate.avg_confidence
          = 0 ∧
        (computeDifficultyScores responses questions).moderate.avg_time = 0) ∧
      ((computeDifficultyScores responses questions).hard.total_questions = 0 →
        (computeDifficultyScores responses questions).hard.accuracy = 0 ∧
        (computeDifficultyScores responses questions).hard.avg_confidence = 0 ∧
        (computeDifficultyScores responses questions).hard.avg_time = 0) := by
  intro responses questions
  refine ⟨fun h => ?_, fun h => ?_, fun h => ?_⟩
  · rw [computeDifficultyScores] at h ⊢
    rw [finalize_total] at h
    rw [accumulate_easy_of_zero _ _ h]
    simp [initScores, DifficultyScore.init, DifficultyScore.finalize]
  · rw [computeDifficultyScores] at h ⊢
    rw [finalize_total] at h
    rw [accumulate_moderate_of_zero _ _ h]
    simp [initScores, DifficultyScore.init, DifficultyScore.finalize]
  · rw [computeDifficultyScores] at h ⊢
    rw [finalize_total] at h
    rw [accumulate_hard_of_zero _ _ h]
    simp [initScores, DifficultyScore.init, DifficultyScore.finalize]

/-- C5 witness: one easy response leaves the hard tier empty, and the
hard tier reports accuracy, mean confidence and mean time 0. -/
theorem empty_tier_reports_zero_witness :
    (computeDifficultyScores [⟨true, 80, 30⟩]
        [⟨"t", Difficulty.easy⟩]).hard.total_questions = 0 ∧
    (computeDifficultyScores [⟨true, 80, 30⟩]
        [⟨"t", Difficulty.easy⟩]).hard.accuracy = 0 ∧
    (computeDifficultyScores [⟨true, 80, 30⟩]
        [⟨"t", Difficulty.easy⟩]).hard.avg_confidence = 0 ∧
    (computeDifficultyScores [⟨true, 80, 30⟩]
        [⟨"t", Difficulty.easy⟩]).hard.avg_time = 0 :=
  ⟨by decide,
    (empty_tier_reports_zero [⟨true, 80, 30⟩] [⟨"t", Difficulty.easy⟩]).2.2
      (by decide)⟩

/-! ### C6: understanding level -/

/-- The three-response scenario of the specification:
[correct, easy, 90 %, 10 s], [incorrect, easy, 40 %, 15 s],
[correct, moderate, 70 %, 20 s] (the topic is not constrained). -/
def threeResponseScenario : List QuestionResponse :=
  [⟨true, 90, 10⟩, ⟨false, 40, 15⟩, ⟨true, 70, 20⟩]

/-- The questions matching `threeResponseScenario`: easy, easy,
moderate. -/
def threeResponseQuestions : List Question :=
  [⟨"t", .easy⟩, ⟨"t", .easy⟩, ⟨"t", .moderate⟩]

theorem threeResponseScenario_scores :
    computeDifficultyScores threeResponseScenario threeResponseQuestions =
      { easy := ⟨.easy, 2, 1, 50, 65, 25 / 2⟩
        moderate := ⟨.moderate, 1, 1, 100, 70, 20⟩
        hard := ⟨.hard, 0, 0, 0, 0, 0⟩ } := by
  simp only [computeDifficultyScores, threeResponseScenario,
    threeResponseQuestions, accumulateScores, initScores,
    DifficultyScore.init, DifficultyScore.addResponse,
    DifficultyScore.finalize, List.zip_cons_cons, List.zip_nil_right,
    List.foldl_cons, List.foldl_nil]
  norm_num

/-- C6: `determineUnderstandingLevel` returns job-ready exactly on
easy ≥ 80 ∧ moderate ≥ 70 ∧ hard ≥ 60, otherwise improving exactly on
easy ≥ 70 ∧ moderate ≥ 60, otherwise beginner — job-ready is decided
first; and on the three-response scenario the tier accuracies are
50 / 100 / 0 and the level is beginner. -/
theorem understanding_level_classification :
    (∀ ds : DifficultyScores,
      (determineUnderstandingLevel ds = .jobReady ↔
        ds.easy.accuracy ≥ 80 ∧ ds.moderate.accuracy ≥ 70 ∧
          ds.hard.accuracy ≥ 60) ∧
      (determineUnderstandingLevel ds = .improving ↔
        ¬(ds.easy.accuracy ≥ 80 ∧ ds.moderate.accuracy ≥ 70 ∧
            ds.hard.accuracy ≥ 60) ∧
          ds.easy.accuracy ≥ 70 ∧ ds.moderate.accuracy ≥ 60) ∧
      (determineUnderstandingLevel ds = .beginner ↔
        ¬(ds.easy.accuracy ≥ 80 ∧ ds.moderate.accuracy ≥ 70 ∧
            ds.hard.accuracy ≥ 60) ∧
          ¬(ds.easy.accuracy ≥ 70 ∧ ds.moderate.accuracy ≥ 60))) ∧
    (computeDifficultyScores threeResponseScenario
        threeResponseQuestions).easy.accuracy = 50 ∧
    (computeDifficultyScores threeResponseScenario
        threeResponseQuestions).moderate.accuracy = 100 ∧
    (computeDifficultyScores threeResponseScenario
        threeResponseQuestions).hard.accuracy = 0 ∧
    determineUnderstandingLevel
      (computeDifficultyScores threeResponseScenario
        threeResponseQuestions) = .beginner := by
  refine ⟨fun ds => ?_, ?_, ?_, ?_, ?_⟩
  · rw [determineUnderstandingLevel]
    split_ifs with h1 h2 <;> refine ⟨?_, ?_, ?_⟩ <;> simp_all
  · rw [threeResponseScenario_scores]
  · rw [threeResponseScenario_scores]
  · rw [threeResponseScenario_scores]
  · rw [threeResponseScenario_scores]
    norm_num [determineUnderstandingLevel]

/-! ### C8: recommendation list -/

/-- C8: the recommendation list equals the ordered candidate list
(at most one message each for hard < 60, moderate < 60, easy < 70,
needs-revision topics, miscalibration — in that fixed order), with a
single positive default message substituted when no candidate was
generated, truncated to the first 3 entries; its length is always
between 1 and 3. -/
theorem recommendations_length_one_to_three :
    ∀ (ds : DifficultyScores) (conceptMastery : List ConceptMastery),
      generateRecommendations ds conceptMastery =
        (if recommendationCandidates ds conceptMastery = [] then
          ["Excellent performance! Continue practicing advanced topics to maintain mastery."]
        else recommendationCandidates ds conceptMastery).take 3 ∧
      1 ≤ (generateRecommendations ds conceptMastery).length ∧
      (generateRecommendations ds conceptMastery).length ≤ 3 := by
  intro ds conceptMastery
  have hdef : generateRecommendations ds conceptMastery =
      (if recommendationCandidates ds conceptMastery = [] then
        ["Excellent performance! Continue practicing advanced topics to maintain mastery."]
      else recommendationCandidates ds conceptMastery).take 3 := by
    simp [generateRecommendations, List.length_eq_zero]
  refine ⟨hdef, ?_, ?_⟩
  · rw [hdef]
    rcases h : recommendationCandidates ds conceptMastery with - | ⟨a, l⟩
    · simp
    · simp
  · rw [hdef, List.length_take]
    exact min_le_left _ _

/-! ### C9: sorting of the concept mastery list -/

theorem filter_orderedInsert_overall (v : ℚ) (x : ConceptMastery) :
    ∀ l : List ConceptMastery,
      (List.orderedInsert masteryGE x l).filter
          (fun a => a.overall_score = v) =
        if x.overall_score = v then
          x :: l.filter (fun a => a.overall_score = v)
        else l.filter (fun a => a.overall_score = v)
  | [] => by
    simp only [List.orderedInsert, List.filter]
    by_cases hx : x.overall_score = v <;> simp [hx]
  | b :: l => by
    simp only [List.orderedInsert]
    by_cases hle : masteryGE x b
    · rw [if_pos hle]
      simp only [List.filter_cons]
      by_cases hx : x.overall_score = v <;> simp [hx]
    · rw [if_neg hle]
      simp only [List.filter_cons]
      by_cases hb : b.overall_score = v
      · by_cases hx : x.overall_score = v
        · exact absurd (by rw [masteryGE, hb, hx]) hle
        · simp [hb, hx, filter_orderedInsert_overall v x l]
      · by_cases hx : x.overall_score = v <;>
          simp [hb, hx, filter_orderedInsert_overall v x l]

theorem filter_insertionSort_overall (v : ℚ) :
    ∀ l : List ConceptMastery,
      (List.insertionSort masteryGE l).filter
          (fun a => a.overall_score = v) =
        l.filter (fun a => a.overall_score = v)
  | [] => rfl
  | b :: l => by
    rw [List.insertionSort, filter_orderedInsert_overall,
      filter_insertionSort_overall v l, List.filter_cons]
    by_cases hb : b.overall_score = v <;> simp [hb]

/-- C9: `computeConceptMastery` output is sorted descending by overall
score, and it is a stable reordering of the first-encounter list: for
every score value, the entries carrying that score appear in exactly the
order their topics were first encountered in the response list; the
topics of the pre-sort list are the first-encounter sequence itself. -/
theorem concept_mastery_sorted_descending_stable :
    ∀ (responses : List QuestionResponse) (questions : List Question),
      (computeConceptMastery responses questions).Sorted masteryGE ∧
      (∀ v : ℚ,
        (computeConceptMastery responses questions).filter
            (fun m => m.overall_score = v) =
          (conceptEncounterList responses questions).filter
            (fun m => m.overall_score = v)) ∧
      (conceptEncounterList responses questions).map
          (fun m => m.concept) =
        firstEncounter ((responses.zip questions).map
          (fun rq => rq.2.topic)) := by
  intro responses questions
  refine ⟨List.sorted_insertionSort masteryGE _, ?_, ?_⟩
  · intro v
    exact filter_insertionSort_overall v _
  · simp only [conceptEncounterList, List.map_map]
    have : (fun m : ConceptMastery => m.concept) ∘
        mkMastery (responses.zip questions) = id := by
      funext t
      rfl
    rw [this, List.map_id]

/-! ### C7: overall confidence score -/

/-- The uniform scenario of the specification: 10 responses, all
correct, confidence 80, time 30 s. -/
def uniformScenario : List QuestionResponse :=
  List.replicate 10 ⟨true, 80, 30⟩

/-- C7: for every non-empty response list the source computes exactly
the formula of the specification
`round(accuracy×0.6 + consistency×0.25 + speed×0.15)` with population
standard deviation and the 120 s baseline; and on the uniform
all-correct 30 s scenario the result is exactly 96. -/
theorem confidence_score_formula :
    (∀ (responses : List QuestionResponse) (ds : DifficultyScores),
      responses ≠ [] →
      computeOverallConfidenceScore responses ds =
        specConfidenceScore responses) ∧
    computeOverallConfidenceScore uniformScenario initScores = 96 := by
  constructor
  · intro responses ds h
    cases responses with
    | nil => exact absurd rfl h
    | cons a l =>
      simp only [computeOverallConfidenceScore, specConfidenceScore]
      rw [mul_comm (Real.sqrt _) 100]
  · have hlist : uniformScenario =
        [⟨true, 80, 30⟩, ⟨true, 80, 30⟩, ⟨true, 80, 30⟩, ⟨true, 80, 30⟩,
          ⟨true, 80, 30⟩, ⟨true, 80, 30⟩, ⟨true, 80, 30⟩, ⟨true, 80, 30⟩,
          ⟨true, 80, 30⟩, ⟨true, 80, 30⟩] := rfl
    rw [hlist]
    simp only [computeOverallConfidenceScore, List.filter, List.map,
      List.length_cons, List.length_nil, List.sum_cons, List.sum_nil]
    norm_num
    rw [round_eq]
    norm_num

/-- C7 witness: the formula equality instantiated at a concrete
one-response list. -/
theorem confidence_score_formula_witness :
    ([(⟨true, 80, 30⟩ : QuestionResponse)] ≠ []) ∧
    computeOverallConfidenceScore [⟨true, 80, 30⟩] initScores =
      specConfidenceScore [⟨true, 80, 30⟩] :=
  ⟨by simp,
    confidence_score_formula.1 [⟨true, 80, 30⟩] initScores (by simp)⟩

end DifficultyScorer
